import Mathlib

/-!
Verification of the devbox CLI core against its specification.

The embedding mirrors `src/devbox/retry.py` (the retry decorator) and
`src/devbox/ec2.py` (locator, authorizer, lifecycle controller).
Python exceptions become an explicit error type, the provider (boto3)
becomes explicit parameters describing its replies, and side effects
(provider calls, sleeps, report/log lines) are collected in traces.
-/

/-- Model of a Python exception value.  `code` is the optional `.code`
attribute tested by the retry wrapper (`hasattr(problem, "code")` yields
`none` when absent); `tag` identifies the exception (its message). -/
structure PyError where
  code : Option Int
  tag : String
deriving DecidableEq

/-- Result of one invocation of a wrapped operation: either a returned
value or a raised (caught) exception. -/
inductive AttemptResult (α : Type) where
  | ok (v : α)
  | err (e : PyError)
deriving DecidableEq

/-- Overall outcome of the retry wrapper: a value returned, an exception
propagated, or the (unreachable) fall-through of the loop. -/
inductive RetryOutcome (α : Type) where
  | returned (v : α)
  | raised (e : PyError)
  | fellThrough
deriving DecidableEq

/-- A call to the `report` sink of the retry wrapper: either the
per-attempt "retry failed ... delaying for ..." line or the terminal
"retry failed definitely: problems" line carrying every accumulated
problem. -/
inductive ReportEvent where
  | retryFailed (e : PyError) (delay : Nat)
  | terminal (problems : List PyError)
deriving DecidableEq

/-- Trace of one run of the retry wrapper: outcome, number of
invocations of the wrapped operation, the sleeps performed (in order),
and the report lines emitted (in order). -/
structure RetryTrace (α : Type) where
  outcome : RetryOutcome α
  invocations : Nat
  sleeps : List Nat
  reports : List ReportEvent
deriving DecidableEq

/-- The loop body of `retry` in `src/devbox/retry.py`: iterate over
`itertools.chain(delays, [None])`; on each element try the operation
(attempt `i` is `f i`); on success return; on a caught exception,
re-raise when `problem.code == 403`, otherwise append it to `problems`;
when the chained element is `None` report the terminal failure and
re-raise, else report and sleep for the delay, then continue. -/
def retryGo {α : Type} (f : Nat → AttemptResult α) :
    List (Option Nat) → Nat → List PyError → RetryTrace α
  | [], _, _ => ⟨.fellThrough, 0, [], []⟩
  | delay :: rest, i, problems =>
    match f i with
    | .ok v => ⟨.returned v, 1, [], []⟩
    | .err e =>
      if e.code = some 403 then ⟨.raised e, 1, [], []⟩
      else
        match delay with
        | none => ⟨.raised e, 1, [], [.terminal (problems ++ [e])]⟩
        | some d =>
          let t := retryGo f rest (i + 1) (problems ++ [e])
          ⟨t.outcome, t.invocations + 1, d :: t.sleeps, .retryFailed e d :: t.reports⟩

/-- `retry(delays)(f)` from `src/devbox/retry.py`: run the loop over
`itertools.chain(delays, [None])` starting with no accumulated
problems. -/
def retry {α : Type} (delays : List Nat) (f : Nat → AttemptResult α) : RetryTrace α :=
  retryGo f (delays.map some ++ [none]) 0 []

/-- The default backoff schedule of the decorator. -/
def defaultDelays : List Nat := [0, 1, 2, 4, 8, 16]

theorem retryGo_cons_ok {α : Type} (f : Nat → AttemptResult α) (c : Option Nat)
    (rest : List (Option Nat)) (i : Nat) (probs : List PyError) (v : α)
    (h : f i = .ok v) :
    retryGo f (c :: rest) i probs = ⟨.returned v, 1, [], []⟩ := by
  simp [retryGo, h]

theorem retryGo_cons_403 {α : Type} (f : Nat → AttemptResult α) (c : Option Nat)
    (rest : List (Option Nat)) (i : Nat) (probs : List PyError) (e : PyError)
    (h : f i = .err e) (h4 : e.code = some 403) :
    retryGo f (c :: rest) i probs = ⟨.raised e, 1, [], []⟩ := by
  simp [retryGo, h, h4]

theorem retryGo_none_err {α : Type} (f : Nat → AttemptResult α)
    (rest : List (Option Nat)) (i : Nat) (probs : List PyError) (e : PyError)
    (h : f i = .err e) (h4 : ¬ e.code = some 403) :
    retryGo f (none :: rest) i probs =
      ⟨.raised e, 1, [], [.terminal (probs ++ [e])]⟩ := by
  simp [retryGo, h, h4]

theorem retryGo_some_err {α : Type} (f : Nat → AttemptResult α) (d : Nat)
    (rest : List (Option Nat)) (i : Nat) (probs : List PyError) (e : PyError)
    (h : f i = .err e) (h4 : ¬ e.code = some 403) :
    retryGo f (some d :: rest) i probs =
      ⟨(retryGo f rest (i + 1) (probs ++ [e])).outcome,
       (retryGo f rest (i + 1) (probs ++ [e])).invocations + 1,
       d :: (retryGo f rest (i + 1) (probs ++ [e])).sleeps,
       .retryFailed e d :: (retryGo f rest (i + 1) (probs ++ [e])).reports⟩ := by
  simp [retryGo, h, h4]

theorem retryGo_succ_after {α : Type} (f : Nat → AttemptResult α)
    (errs : Nat → PyError) (v : α) :
    ∀ (k : Nat) (ds : List Nat) (i : Nat) (probs : List PyError),
      k ≤ ds.length →
      (∀ j, i ≤ j → j < i + k → f j = .err (errs j) ∧ (errs j).code ≠ some 403) →
      f (i + k) = .ok v →
      (retryGo f (ds.map some ++ [none]) i probs).outcome = .returned v ∧
      (retryGo f (ds.map some ++ [none]) i probs).invocations = k + 1 := by
  intro k
  induction k with
  | zero =>
    intro ds i probs _ _ hok
    rw [Nat.add_zero] at hok
    cases ds with
    | nil => rw [List.map_nil, List.nil_append, retryGo_cons_ok f _ _ _ _ _ hok]; exact ⟨rfl, rfl⟩
    | cons d t => rw [List.map_cons, List.cons_append, retryGo_cons_ok f _ _ _ _ _ hok]; exact ⟨rfl, rfl⟩
  | succ k ih =>
    intro ds i probs hk hfail hok
    cases ds with
    | nil => simp at hk
    | cons d t =>
      have hd := hfail i (Nat.le_refl i) (by omega)
      rw [List.map_cons, List.cons_append, retryGo_some_err f _ _ _ _ _ hd.1 hd.2]
      have hok2 : f (i + 1 + k) = .ok v := by
        rw [show i + 1 + k = i + (k + 1) from by omega]; exact hok
      have hfail2 : ∀ j, i + 1 ≤ j → j < i + 1 + k →
          f j = .err (errs j) ∧ (errs j).code ≠ some 403 := by
        intro j h1 h2; exact hfail j (by omega) (by omega)
      have hrec := ih t (i + 1) (probs ++ [errs i])
        (by simpa using Nat.le_of_succ_le_succ (by simpa using hk)) hfail2 hok2
      exact ⟨hrec.1, by simp [hrec.2]⟩

/-- Claim C1: for every delay schedule D and every operation that fails
(with caught, non-403 exceptions) exactly k times with k ≤ len(D) and
then succeeds, the retry wrapper invokes the operation exactly k + 1
times and returns the value produced by the successful attempt. -/
theorem retry_k_failures_then_success {α : Type} (delays : List Nat)
    (f : Nat → AttemptResult α) (errs : Nat → PyError) (v : α) (k : Nat)
    (hk : k ≤ delays.length)
    (hfail : ∀ j, j < k → f j = .err (errs j) ∧ (errs j).code ≠ some 403)
    (hok : f k = .ok v) :
    (retry delays f).outcome = .returned v ∧
    (retry delays f).invocations = k + 1 := by
  have h := retryGo_succ_after f errs v k delays 0 [] hk
    (fun j _ hj => hfail j (by omega)) (by simpa using hok)
  exact ⟨h.1, h.2⟩

def wfC1 : Nat → AttemptResult Nat :=
  fun i => if i = 0 then .err ⟨none, "transient"⟩ else .ok 7

def errsC1 : Nat → PyError := fun _ => ⟨none, "transient"⟩

theorem retry_k_failures_then_success_witness :
    (retry [5, 9] wfC1).outcome = .returned 7 ∧
    (retry [5, 9] wfC1).invocations = 2 :=
  retry_k_failures_then_success [5, 9] wfC1 errsC1 7 1 (by decide)
    (by decide) (by decide)

/-- Claim C2: for every delay schedule, an operation whose attempt fails
with an error carrying a `code` attribute equal to 403 is re-raised
immediately: exactly one invocation, no retry, no report, no sleep,
regardless of how many delays remain. -/
theorem retry_403_immediate {α : Type} (delays : List Nat)
    (f : Nat → AttemptResult α) (e : PyError)
    (h : f 0 = .err e) (h4 : e.code = some 403) :
    retry delays f = ⟨.raised e, 1, [], []⟩ := by
  cases delays with
  | nil =>
    rw [retry, List.map_nil, List.nil_append]
    exact retryGo_cons_403 f _ _ _ _ _ h h4
  | cons d t =>
    rw [retry, List.map_cons, List.cons_append]
    exact retryGo_cons_403 f _ _ _ _ _ h h4

def wfC2 : Nat → AttemptResult Nat := fun _ => .err ⟨some 403, "forbidden"⟩

theorem retry_403_immediate_witness :
    retry defaultDelays wfC2 = ⟨.raised ⟨some 403, "forbidden"⟩, 1, [], []⟩ :=
  retry_403_immediate defaultDelays wfC2 ⟨some 403, "forbidden"⟩ (by decide) (by decide)

/-- The list of problems accumulated by `n` consecutive failing attempts
starting at attempt `i`: `[errs i, errs (i+1), ...]`, in order of
occurrence. -/
def probsUpTo (errs : Nat → PyError) : Nat → Nat → List PyError
  | _, 0 => []
  | i, n + 1 => errs i :: probsUpTo errs (i + 1) n

theorem probsUpTo_eq_range_map (errs : Nat → PyError) :
    ∀ (n i : Nat), probsUpTo errs i n = (List.range n).map (fun j => errs (i + j)) := by
  intro n
  induction n with
  | zero => intro i; simp [probsUpTo]
  | succ n ih =>
    intro i
    rw [List.range_succ_eq_map]
    simp only [probsUpTo, List.map_cons, List.map_map, Nat.add_zero]
    congr 1
    rw [ih (i + 1)]
    exact List.map_congr_left (fun a _ => congrArg errs (by omega))

theorem retryGo_all_fail {α : Type} (f : Nat → AttemptResult α)
    (errs : Nat → PyError)
    (hf : ∀ j, f j = .err (errs j) ∧ (errs j).code ≠ some 403) :
    ∀ (ds : List Nat) (i : Nat) (probs : List PyError),
      (retryGo f (ds.map some ++ [none]) i probs).outcome = .raised (errs (i + ds.length)) ∧
      (retryGo f (ds.map some ++ [none]) i probs).invocations = ds.length + 1 ∧
      (retryGo f (ds.map some ++ [none]) i probs).sleeps = ds ∧
      ReportEvent.terminal (probs ++ probsUpTo errs i (ds.length + 1))
        ∈ (retryGo f (ds.map some ++ [none]) i probs).reports := by
  intro ds
  induction ds with
  | nil =>
    intro i probs
    rw [List.map_nil, List.nil_append, retryGo_none_err f _ _ _ _ (hf i).1 (hf i).2]
    refine ⟨by simp, rfl, rfl, ?_⟩
    simp [probsUpTo]
  | cons d t ih =>
    intro i probs
    rw [List.map_cons, List.cons_append, retryGo_some_err f _ _ _ _ _ (hf i).1 (hf i).2]
    have hrec := ih (i + 1) (probs ++ [errs i])
    refine ⟨?_, ?_, ?_, ?_⟩
    · show (retryGo f (t.map some ++ [none]) (i + 1) (probs ++ [errs i])).outcome = _
      rw [hrec.1]
      exact congrArg _ (congrArg errs (by simp; omega))
    · show (retryGo f (t.map some ++ [none]) (i + 1) (probs ++ [errs i])).invocations + 1 = _
      rw [hrec.2.1]; simp
    · show d :: (retryGo f (t.map some ++ [none]) (i + 1) (probs ++ [errs i])).sleeps = _
      rw [hrec.2.2.1]
    · show ReportEvent.terminal _ ∈ _ :: (retryGo f (t.map some ++ [none]) (i + 1) (probs ++ [errs i])).reports
      refine List.mem_cons_of_mem _ ?_
      have heq : probs ++ probsUpTo errs i (t.length + 1 + 1) =
          (probs ++ [errs i]) ++ probsUpTo errs (i + 1) (t.length + 1) := by
        simp [probsUpTo]
      rw [show (d :: t).length = t.length + 1 from rfl, heq]
      exact hrec.2.2.2

/-- Claim C3: for every delay schedule D and every operation whose
attempts all fail with caught non-403 errors, after all len(D) + 1
attempts the wrapper emits a terminal report listing all accumulated
failures in order of occurrence and re-raises the last failure. -/
theorem retry_all_fail_terminal {α : Type} (delays : List Nat)
    (f : Nat → AttemptResult α) (errs : Nat → PyError)
    (hf : ∀ j, f j = .err (errs j) ∧ (errs j).code ≠ some 403) :
    (retry delays f).outcome = .raised (errs delays.length) ∧
    (retry delays f).invocations = delays.length + 1 ∧
    (retry delays f).sleeps = delays ∧
    ReportEvent.terminal ((List.range (delays.length + 1)).map errs)
      ∈ (retry delays f).reports := by
  have h := retryGo_all_fail f errs hf delays 0 []
  refine ⟨by simpa using h.1, h.2.1, h.2.2.1, ?_⟩
  have := h.2.2.2
  rw [probsUpTo_eq_range_map] at this
  simpa using this

def wfC3 : Nat → AttemptResult Nat := fun i => .err ⟨none, toString i⟩

def errsC3 : Nat → PyError := fun i => ⟨none, toString i⟩

theorem retry_all_fail_terminal_witness :
    (retry [2, 3] wfC3).outcome = .raised ⟨none, "2"⟩ ∧
    (retry [2, 3] wfC3).invocations = 3 ∧
    (retry [2, 3] wfC3).sleeps = [2, 3] ∧
    ReportEvent.terminal ((List.range 3).map errsC3) ∈ (retry [2, 3] wfC3).reports :=
  retry_all_fail_terminal [2, 3] wfC3 errsC3 (fun j => ⟨rfl, by simp [errsC3]⟩)

/-- Claim C9: for an empty delay sequence the wrapper makes exactly one
attempt; on a caught failure it performs no sleep and no further
attempt, emits the terminal report (for a non-403 error) and re-raises;
a 403-coded error is also re-raised, never swallowed. -/
theorem retry_empty_delays {α : Type} (f : Nat → AttemptResult α) (e : PyError)
    (h : f 0 = .err e) :
    (retry [] f).invocations = 1 ∧
    (retry [] f).sleeps = [] ∧
    (retry [] f).outcome = .raised e ∧
    (e.code ≠ some 403 → (retry [] f).reports = [.terminal [e]]) ∧
    (e.code = some 403 → (retry [] f).reports = []) := by
  by_cases h4 : e.code = some 403
  · rw [retry, List.map_nil, List.nil_append, retryGo_cons_403 f _ _ _ _ _ h h4]
    exact ⟨rfl, rfl, rfl, fun hc => absurd h4 hc, fun _ => rfl⟩
  · rw [retry, List.map_nil, List.nil_append, retryGo_none_err f _ _ _ _ h h4]
    exact ⟨rfl, rfl, rfl, fun _ => rfl, fun hc => absurd hc h4⟩

def wfC9 : Nat → AttemptResult Nat := fun _ => .err ⟨none, "transient"⟩

theorem retry_empty_delays_witness :
    (retry [] wfC9).invocations = 1 ∧
    (retry [] wfC9).sleeps = [] ∧
    (retry [] wfC9).outcome = .raised ⟨none, "transient"⟩ ∧
    (retry [] wfC9).reports = [.terminal [⟨none, "transient"⟩]] := by
  have h := retry_empty_delays wfC9 ⟨none, "transient"⟩ (by decide)
  exact ⟨h.1, h.2.1, h.2.2.1, h.2.2.2.1 (by decide)⟩

/-- An exception with no `code` attribute, tagged by a message.  Used for
Python `IndexError` and the generic `Exception` raised by the code. -/
def plainError (msg : String) : PyError := ⟨none, msg⟩

/-- The `ClientError` raised by the provider, re-raised by
`authorize_ingress`; carries the provider error code and message and has
no numeric `.code` attribute. -/
def clientErrorExc (code msg : String) : PyError :=
  ⟨none, "ClientError " ++ code ++ " " ++ msg⟩

/-- One reservation of a `describe_instances` response, kept as the list
of the `InstanceId` fields of its `Instances` entries. -/
structure Reservation where
  instances : List String
deriving DecidableEq

/-- A `describe_instances` response: its `Reservations` list. -/
structure DescribeResponse where
  reservations : List Reservation
deriving DecidableEq

/-- `get_ec2_instance_id_by_name` from `src/devbox/ec2.py`, as a function
of what `describe_instances` does (returns a response or raises).  On a
raised exception log and return `None`; if `Reservations == []` log and
return `None`; if `len(Reservations) > 1` log and return `None`;
otherwise return `Reservations[0]["Instances"][0]["InstanceId"]`, the
indexing raising `IndexError` when the single reservation has no
instances. -/
def get_ec2_instance_id_by_name (resp : Except PyError DescribeResponse) :
    Except PyError (Option String) :=
  match resp with
  | .error _ => .ok none
  | .ok r =>
    match r.reservations with
    | [] => .ok none
    | [res] =>
      match res.instances with
      | [] => .error (plainError "IndexError")
      | id :: _ => .ok (some id)
    | _ :: _ :: _ => .ok none

/-- `get_ec2_instance_resource` from `src/devbox/ec2.py`.  Constructing
`boto3.resource("ec2").Instance(None)` raises
`ValueError("Required parameter id not set")`, which the function
catches (its message contains "Required parameter") to return `None`;
with a present ID the construction is local and yields the resource for
that ID. -/
def get_ec2_instance_resource (instance_id : Option String) : Option String :=
  match instance_id with
  | none => none
  | some id => some id

/-- Body of `get_instance_public_ip` from `src/devbox/ec2.py` (the
function decorated by `@retry`), as a function of the resource's
`public_ip_address` attribute: raise `Exception("No public IP address
found")` when the attribute is `None`, otherwise return it. -/
def get_instance_public_ip_body (public_ip_address : Option String) :
    AttemptResult (Option String) :=
  match public_ip_address with
  | none => .err (plainError "No public IP address found")
  | some _ => .ok public_ip_address

/-- The decorated `get_instance_public_ip`: the retry wrapper with the
default schedule around the body, attempt `i` seeing the attribute value
`ipSeq i`. -/
def get_instance_public_ip (ipSeq : Nat → Option String) :
    RetryTrace (Option String) :=
  retry defaultDelays (fun i => get_instance_public_ip_body (ipSeq i))

/-- A provider call issued by a lifecycle operation. -/
inductive ProviderCall where
  | startCall (id : String)
  | waitRunning (id : String)
  | stopCall (id : String)
  | waitStopped (id : String)
  | rebootCall (id : String)
  | authorizeCall (groupId : String) (cidr : String)
  | ipFetch
deriving DecidableEq

/-- A logger call made by `authorize_ingress`: an info line, or the
error line carrying the group ID and the provider-supplied error code
and message. -/
inductive LogEvent where
  | info (msg : String)
  | authError (groupId : String) (code : String) (msg : String)
deriving DecidableEq

/-- The provider's reply to a `security_group.authorize_ingress` call:
the response value on success, or a raised `ClientError` with its
`response["Error"]` code and message. -/
inductive ProviderAuthReply where
  | success (resp : String)
  | clientError (code : String) (msg : String)
deriving DecidableEq

deriving instance DecidableEq for Except

/-- Trace of one run of `authorize_ingress`: its result (returned value,
which may be Python `None`, or raised exception), its logger calls, and
the provider calls it issued. -/
structure AuthTrace where
  result : Except PyError (Option String)
  logs : List LogEvent
  actions : List ProviderCall
deriving DecidableEq

/-- `authorize_ingress` from `src/devbox/ec2.py`, as a function of the
provider's reply.  A `None` security group is a logged no-op returning
`None`; otherwise issue the call for TCP port 22 from `ip/32`; on
`ClientError` with code `InvalidPermission.Duplicate` log and return
`None`; on any other `ClientError` log the group ID with the provider
code and message and re-raise; on success return the response. -/
def authorize_ingress (security_group : Option String) (ssh_ingress_ip : String)
    (reply : ProviderAuthReply) : AuthTrace :=
  match security_group with
  | none => ⟨.ok none, [.info "No security group to update."], []⟩
  | some g =>
    match reply with
    | .success resp => ⟨.ok (some resp), [], [.authorizeCall g (ssh_ingress_ip ++ "/32")]⟩
    | .clientError code msg =>
      if code = "InvalidPermission.Duplicate" then
        ⟨.ok none, [.info "Inbound rules already exist. Nothing to do."],
         [.authorizeCall g (ssh_ingress_ip ++ "/32")]⟩
      else
        ⟨.error (clientErrorExc code msg), [.authError g code msg],
         [.authorizeCall g (ssh_ingress_ip ++ "/32")]⟩

/-- Provider semantics for `authorize_ingress` calls (spec §3: the rule
set "may already contain a rule identical to the one this system wants
to add"): a group's state is the set of CIDRs already allowed on TCP 22;
a call for an existing CIDR raises the duplicate `ClientError`, a call
for a new CIDR succeeds and adds it. -/
def providerAuthorize (rules : List String) (cidr : String) :
    ProviderAuthReply × List String :=
  if cidr ∈ rules then
    (.clientError "InvalidPermission.Duplicate" "the specified rule already exists", rules)
  else
    (.success "authorized", cidr :: rules)

/-- `authorize_ingress` run against the stateful provider model:
returns the trace and the group's rule set after the call. -/
def authorize_ingress_st (security_group : Option String) (ssh_ingress_ip : String)
    (rules : List String) : AuthTrace × List String :=
  match security_group with
  | none => (authorize_ingress none ssh_ingress_ip (.success "authorized"), rules)
  | some g =>
    let r := providerAuthorize rules (ssh_ingress_ip ++ "/32")
    (authorize_ingress (some g) ssh_ingress_ip r.1, r.2)

/-- The environment of one `start_instance` run: what
`describe_instances` yields for the name, the instance's
`security_groups` group IDs, the caller's IP, the provider's reply to
the authorize call, and the `public_ip_address` attribute seen by each
fetch attempt. -/
structure StartEnv where
  resp : Except PyError DescribeResponse
  security_groups : List String
  my_ip : String
  authReply : ProviderAuthReply
  ipSeq : Nat → Option String

/-- `start_instance` from `src/devbox/ec2.py`: resolve the name, wrap
the ID in a resource (returning `(None, None)` when that is `None`),
start and wait until running, read `security_groups[0]["GroupId"]`
(raising `IndexError` when empty), run `authorize_ingress`, fetch the
public IP through the retry wrapper, and return
`(instance_id, public_ip)`.  The second component collects the provider
calls issued. -/
def start_instance (env : StartEnv) :
    (Except PyError (Option String × Option String)) × List ProviderCall :=
  match get_ec2_instance_id_by_name env.resp with
  | .error e => (.error e, [])
  | .ok oid =>
    match get_ec2_instance_resource oid with
    | none => (.ok (none, none), [])
    | some id =>
      let acts0 : List ProviderCall := [.startCall id, .waitRunning id]
      match env.security_groups with
      | [] => (.error (plainError "IndexError"), acts0)
      | g :: _ =>
        let auth := authorize_ingress (some g) env.my_ip env.authReply
        match auth.result with
        | .error e => (.error e, acts0 ++ auth.actions)
        | .ok _ =>
          let t := get_instance_public_ip env.ipSeq
          let acts := acts0 ++ auth.actions ++ List.replicate t.invocations ProviderCall.ipFetch
          match t.outcome with
          | .returned v => (.ok (some id, v), acts)
          | .raised e => (.error e, acts)
          | .fellThrough => (.ok (some id, none), acts)

/-- `stop_instance` from `src/devbox/ec2.py`: resolve the name, wrap the
ID in a resource (returning `None` when that is `None`), stop, wait
until stopped, return the ID. -/
def stop_instance (resp : Except PyError DescribeResponse) :
    (Except PyError (Option String)) × List ProviderCall :=
  match get_ec2_instance_id_by_name resp with
  | .error e => (.error e, [])
  | .ok oid =>
    match get_ec2_instance_resource oid with
    | none => (.ok none, [])
    | some id => (.ok (some id), [.stopCall id, .waitStopped id])

/-- `reboot_instance` from `src/devbox/ec2.py`: resolve the name, wrap
the ID in a resource (returning `None` when that is `None`), issue the
reboot, return the ID immediately. -/
def reboot_instance (resp : Except PyError DescribeResponse) :
    (Except PyError (Option String)) × List ProviderCall :=
  match get_ec2_instance_id_by_name resp with
  | .error e => (.error e, [])
  | .ok oid =>
    match get_ec2_instance_resource oid with
    | none => (.ok none, [])
    | some id => (.ok (some id), [.rebootCall id])

/-- `get_instance_status` from `src/devbox/ec2.py`: resolve the name,
wrap the ID in a resource (returning `(None, None)` when that is
`None`); if `state["Name"]` is `"stopped"` return
`("stopped", "0.0.0.0")` without fetching; otherwise fetch the public IP
through the retry wrapper and return `(state["Name"], public_ip)`.  The
second component collects one `ipFetch` per invocation of the wrapped
fetch. -/
def get_instance_status (resp : Except PyError DescribeResponse) (state : String)
    (ipSeq : Nat → Option String) :
    (Except PyError (Option String × Option String)) × List ProviderCall :=
  match get_ec2_instance_id_by_name resp with
  | .error e => (.error e, [])
  | .ok oid =>
    match get_ec2_instance_resource oid with
    | none => (.ok (none, none), [])
    | some _ =>
      if state = "stopped" then (.ok (some "stopped", some "0.0.0.0"), [])
      else
        let t := get_instance_public_ip ipSeq
        let acts := List.replicate t.invocations ProviderCall.ipFetch
        match t.outcome with
        | .returned v => (.ok (some state, v), acts)
        | .raised e => (.error e, acts)
        | .fellThrough => (.ok (some state, none), acts)

theorem retryGo_cons_invocations_pos {α : Type} (f : Nat → AttemptResult α)
    (c : Option Nat) (rest : List (Option Nat)) (i : Nat) (probs : List PyError) :
    1 ≤ (retryGo f (c :: rest) i probs).invocations := by
  cases hfi : f i with
  | ok v => rw [retryGo_cons_ok f _ _ _ _ _ hfi]
  | err e =>
    by_cases h4 : e.code = some 403
    · rw [retryGo_cons_403 f _ _ _ _ _ hfi h4]
    · cases c with
      | none => rw [retryGo_none_err f _ _ _ _ hfi h4]
      | some d => rw [retryGo_some_err f _ _ _ _ _ hfi h4]; simp

theorem retry_invocations_pos {α : Type} (f : Nat → AttemptResult α) (ds : List Nat) :
    1 ≤ (retry ds f).invocations := by
  cases ds with
  | nil =>
    rw [retry, List.map_nil, List.nil_append]
    exact retryGo_cons_invocations_pos f _ _ _ _
  | cons d t =>
    rw [retry, List.map_cons, List.cons_append]
    exact retryGo_cons_invocations_pos f _ _ _ _

theorem retryGo_ne_fellThrough {α : Type} (f : Nat → AttemptResult α) :
    ∀ (ds : List Nat) (i : Nat) (probs : List PyError),
      (retryGo f (ds.map some ++ [none]) i probs).outcome ≠ .fellThrough := by
  intro ds
  induction ds with
  | nil =>
    intro i probs
    cases hfi : f i with
    | ok v => rw [List.map_nil, List.nil_append, retryGo_cons_ok f _ _ _ _ _ hfi]; simp
    | err e =>
      by_cases h4 : e.code = some 403
      · rw [List.map_nil, List.nil_append, retryGo_cons_403 f _ _ _ _ _ hfi h4]; simp
      · rw [List.map_nil, List.nil_append, retryGo_none_err f _ _ _ _ hfi h4]; simp
  | cons d t ih =>
    intro i probs
    cases hfi : f i with
    | ok v => rw [List.map_cons, List.cons_append, retryGo_cons_ok f _ _ _ _ _ hfi]; simp
    | err e =>
      by_cases h4 : e.code = some 403
      · rw [List.map_cons, List.cons_append, retryGo_cons_403 f _ _ _ _ _ hfi h4]; simp
      · rw [List.map_cons, List.cons_append, retryGo_some_err f _ _ _ _ _ hfi h4]
        exact ih (i + 1) (probs ++ [e])

theorem retry_ne_fellThrough {α : Type} (f : Nat → AttemptResult α) (ds : List Nat) :
    (retry ds f).outcome ≠ .fellThrough := by
  rw [retry]
  exact retryGo_ne_fellThrough f ds 0 []

theorem retryGo_returned_attempt {α : Type} (f : Nat → AttemptResult α) (v : α) :
    ∀ (chain : List (Option Nat)) (i : Nat) (probs : List PyError),
      (retryGo f chain i probs).outcome = .returned v → ∃ j, f j = .ok v := by
  intro chain
  induction chain with
  | nil => intro i probs h; rw [retryGo] at h; simp at h
  | cons c rest ih =>
    intro i probs h
    cases hfi : f i with
    | ok w =>
      rw [retryGo_cons_ok f _ _ _ _ _ hfi] at h
      simp at h
      exact ⟨i, by rw [hfi, h]⟩
    | err e =>
      by_cases h4 : e.code = some 403
      · rw [retryGo_cons_403 f _ _ _ _ _ hfi h4] at h; simp at h
      · cases c with
        | none => rw [retryGo_none_err f _ _ _ _ hfi h4] at h; simp at h
        | some d =>
          rw [retryGo_some_err f _ _ _ _ _ hfi h4] at h
          exact ih (i + 1) (probs ++ [e]) h

theorem get_instance_public_ip_returned_not_none (ipSeq : Nat → Option String)
    (v : Option String)
    (h : (get_instance_public_ip ipSeq).outcome = .returned v) : v ≠ none := by
  rw [get_instance_public_ip, retry] at h
  obtain ⟨j, hj⟩ := retryGo_returned_attempt _ v _ 0 [] h
  cases hs : ipSeq j with
  | none => simp [get_instance_public_ip_body, hs] at hj
  | some a =>
    simp [get_instance_public_ip_body, hs] at hj
    subst hj
    simp

/-- Claim C4: the instance locator returns a no-result for zero matching
reservations, the match's instance ID for exactly one, and a no-result
(never an arbitrary pick) for more than one matching reservation. -/
theorem locator_match_cases (resp : DescribeResponse) :
    (resp.reservations = [] →
       get_ec2_instance_id_by_name (.ok resp) = .ok none) ∧
    (1 < resp.reservations.length →
       get_ec2_instance_id_by_name (.ok resp) = .ok none) ∧
    (∀ res id rest, resp.reservations = [res] → res.instances = id :: rest →
       get_ec2_instance_id_by_name (.ok resp) = .ok (some id)) := by
  refine ⟨?_, ?_, ?_⟩
  · intro h
    simp [get_ec2_instance_id_by_name, h]
  · intro h
    cases hr : resp.reservations with
    | nil => rw [hr] at h; simp at h
    | cons a t =>
      cases ht : t with
      | nil => rw [hr, ht] at h; simp at h
      | cons b u => simp [get_ec2_instance_id_by_name, hr, ht]
  · intro res id rest h1 h2
    simp [get_ec2_instance_id_by_name, h1, h2]

def respOne : DescribeResponse := ⟨[⟨["i-0123"]⟩]⟩

theorem locator_match_cases_witness :
    get_ec2_instance_id_by_name (.ok respOne) = .ok (some "i-0123") :=
  (locator_match_cases respOne).2.2 ⟨["i-0123"]⟩ "i-0123" [] rfl rfl

/-- Claim C5: for a name whose resolution fails (not found or ambiguous,
i.e. the locator returns Python `None`), each lifecycle operation
(start, stop, reboot, status) returns a null identifier and issues no
provider call. -/
theorem resolution_failure_aborts (env : StartEnv) (state : String)
    (h : get_ec2_instance_id_by_name env.resp = .ok none) :
    start_instance env = (.ok (none, none), []) ∧
    stop_instance env.resp = (.ok none, []) ∧
    reboot_instance env.resp = (.ok none, []) ∧
    get_instance_status env.resp state env.ipSeq = (.ok (none, none), []) := by
  refine ⟨?_, ?_, ?_, ?_⟩ <;>
    simp [start_instance, stop_instance, reboot_instance, get_instance_status,
      h, get_ec2_instance_resource]

def envNoMatch : StartEnv :=
  ⟨.ok ⟨[]⟩, ["sg-1"], "1.2.3.4", .success "authorized", fun _ => none⟩

theorem resolution_failure_aborts_witness :
    start_instance envNoMatch = (.ok (none, none), []) ∧
    stop_instance envNoMatch.resp = (.ok none, []) ∧
    reboot_instance envNoMatch.resp = (.ok none, []) ∧
    get_instance_status envNoMatch.resp "running" envNoMatch.ipSeq = (.ok (none, none), []) :=
  resolution_failure_aborts envNoMatch "running" (by decide)

theorem get_instance_status_resolved (resp : Except PyError DescribeResponse)
    (state : String) (ipSeq : Nat → Option String) (id : String)
    (h : get_ec2_instance_id_by_name resp = .ok (some id)) :
    get_instance_status resp state ipSeq =
      if state = "stopped" then (.ok (some "stopped", some "0.0.0.0"), [])
      else
        match (get_instance_public_ip ipSeq).outcome with
        | .returned v => (.ok (some state, v),
            List.replicate (get_instance_public_ip ipSeq).invocations ProviderCall.ipFetch)
        | .raised e => (.error e,
            List.replicate (get_instance_public_ip ipSeq).invocations ProviderCall.ipFetch)
        | .fellThrough => (.ok (some state, none),
            List.replicate (get_instance_public_ip ipSeq).invocations ProviderCall.ipFetch) := by
  simp [get_instance_status, h, get_ec2_instance_resource]

/-- Claim C6: for a resolvable instance whose provider-reported state is
exactly "stopped", the status operation returns ("stopped", "0.0.0.0")
and never invokes the public-IP retrieval path; for any other state it
fetches the public IP through the retry wrapper (at least one fetch
attempt, one recorded call per attempt) and returns the state name with
the fetched IP. -/
theorem status_stopped_shortcircuit (resp : Except PyError DescribeResponse)
    (state : String) (ipSeq : Nat → Option String) (id : String)
    (h : get_ec2_instance_id_by_name resp = .ok (some id)) :
    (state = "stopped" →
       get_instance_status resp state ipSeq = (.ok (some "stopped", some "0.0.0.0"), [])) ∧
    (state ≠ "stopped" →
       (get_instance_status resp state ipSeq).2 =
         List.replicate (get_instance_public_ip ipSeq).invocations ProviderCall.ipFetch ∧
       1 ≤ (get_instance_public_ip ipSeq).invocations ∧
       (∀ v, (get_instance_public_ip ipSeq).outcome = .returned v →
          (get_instance_status resp state ipSeq).1 = .ok (some state, v))) := by
  constructor
  · intro hs
    rw [get_instance_status_resolved resp state ipSeq id h, if_pos hs]
  · intro hs
    rw [get_instance_status_resolved resp state ipSeq id h, if_neg hs]
    refine ⟨?_, retry_invocations_pos _ _, ?_⟩
    · cases ho : (get_instance_public_ip ipSeq).outcome <;> simp [ho]
    · intro v hv
      rw [hv]

theorem status_stopped_shortcircuit_witness :
    get_instance_status (.ok respOne) "stopped" (fun _ => none) =
      (.ok (some "stopped", some "0.0.0.0"), []) :=
  (status_stopped_shortcircuit (.ok respOne) "stopped" (fun _ => none) "i-0123"
    (by decide)).1 rfl

/-- Claim C7: the network-access authorizer is idempotent: against the
stateful provider model, calling it twice with the same rule set and IP
succeeds both times, the duplicate-permission error of the second call
being treated as success and no error line ever logged. -/
theorem authorize_ingress_idempotent (g ip : String) (rules : List String) :
    (∃ v, (authorize_ingress_st (some g) ip rules).1.result = .ok v) ∧
    ((authorize_ingress_st (some g) ip
        (authorize_ingress_st (some g) ip rules).2).1.result = .ok none) ∧
    (∀ x c m, LogEvent.authError x c m ∉ (authorize_ingress_st (some g) ip rules).1.logs) ∧
    (∀ x c m, LogEvent.authError x c m ∉
       (authorize_ingress_st (some g) ip
         (authorize_ingress_st (some g) ip rules).2).1.logs) := by
  by_cases hm : (ip ++ "/32") ∈ rules <;>
    simp [authorize_ingress_st, providerAuthorize, authorize_ingress, hm]

theorem authorize_ingress_idempotent_witness :
    (∃ v, (authorize_ingress_st (some "sg-1") "1.2.3.4" []).1.result = .ok v) ∧
    ((authorize_ingress_st (some "sg-1") "1.2.3.4"
        (authorize_ingress_st (some "sg-1") "1.2.3.4" []).2).1.result = .ok none) ∧
    (∀ x c m, LogEvent.authError x c m ∉
       (authorize_ingress_st (some "sg-1") "1.2.3.4" []).1.logs) ∧
    (∀ x c m, LogEvent.authError x c m ∉
       (authorize_ingress_st (some "sg-1") "1.2.3.4"
         (authorize_ingress_st (some "sg-1") "1.2.3.4" []).2).1.logs) :=
  authorize_ingress_idempotent "sg-1" "1.2.3.4" []

/-- Claim C8: a null rule-set reference makes the authorizer a reported
no-op that does not fail and issues no provider call; any provider error
other than the duplicate-permission signal is logged with the
provider-supplied error code and message and re-raised to the caller. -/
theorem authorize_ingress_null_and_errors (ip : String) (reply : ProviderAuthReply) :
    authorize_ingress none ip reply =
      ⟨.ok none, [.info "No security group to update."], []⟩ ∧
    (∀ g code msg, code ≠ "InvalidPermission.Duplicate" →
       authorize_ingress (some g) ip (.clientError code msg) =
         ⟨.error (clientErrorExc code msg), [.authError g code msg],
          [.authorizeCall g (ip ++ "/32")]⟩) := by
  constructor
  · rfl
  · intro g code msg hc
    simp [authorize_ingress, hc]

theorem authorize_ingress_null_and_errors_witness :
    authorize_ingress none "1.2.3.4" (.clientError "Throttling" "rate exceeded") =
      ⟨.ok none, [.info "No security group to update."], []⟩ ∧
    authorize_ingress (some "sg-1") "1.2.3.4" (.clientError "Throttling" "rate exceeded") =
      ⟨.error (clientErrorExc "Throttling" "rate exceeded"),
       [.authError "sg-1" "Throttling" "rate exceeded"],
       [.authorizeCall "sg-1" ("1.2.3.4" ++ "/32")]⟩ :=
  ⟨(authorize_ingress_null_and_errors "1.2.3.4"
      (.clientError "Throttling" "rate exceeded")).1,
   (authorize_ingress_null_and_errors "1.2.3.4"
      (.clientError "Throttling" "rate exceeded")).2 "sg-1" "Throttling" "rate exceeded"
      (by decide)⟩

/-- Claim C10 (implicit): the public-IP fetch never yields a null
address: the wrapped body either raises or returns a non-null IP string,
the retry-wrapped fetch never returns a null value, and a start that
returns an instance ID returns a non-null public IP alongside it. -/
theorem public_ip_never_null :
    (∀ ip : Option String, get_instance_public_ip_body ip ≠ .ok none) ∧
    (∀ (ipSeq : Nat → Option String) (v : Option String),
       (get_instance_public_ip ipSeq).outcome = .returned v → v ≠ none) ∧
    (∀ (env : StartEnv) (id : String) (ip : Option String),
       (start_instance env).1 = .ok (some id, ip) → ip ≠ none) := by
  refine ⟨?_, get_instance_public_ip_returned_not_none, ?_⟩
  · intro ip
    cases ip <;> simp [get_instance_public_ip_body]
  · intro env id ip h
    cases hres : get_ec2_instance_id_by_name env.resp with
    | error e => simp [start_instance, hres] at h
    | ok oid =>
      cases oid with
      | none => simp [start_instance, hres, get_ec2_instance_resource] at h
      | some i2 =>
        cases hsg : env.security_groups with
        | nil => simp [start_instance, hres, get_ec2_instance_resource, hsg] at h
        | cons g gs =>
          cases hauth : (authorize_ingress (some g) env.my_ip env.authReply).result with
          | error e =>
            simp [start_instance, hres, get_ec2_instance_resource, hsg, hauth] at h
          | ok w =>
            cases hout : (get_instance_public_ip env.ipSeq).outcome with
            | returned v =>
              simp [start_instance, hres, get_ec2_instance_resource, hsg, hauth, hout] at h
              exact h.2 ▸ get_instance_public_ip_returned_not_none env.ipSeq v hout
            | raised e =>
              simp [start_instance, hres, get_ec2_instance_resource, hsg, hauth, hout] at h
            | fellThrough => exact absurd hout (retry_ne_fellThrough _ _)

def envStart : StartEnv :=
  ⟨.ok respOne, ["sg-1"], "1.2.3.4", .success "authorized", fun _ => some "203.0.113.5"⟩

theorem public_ip_never_null_witness :
    (some "203.0.113.5" : Option String) ≠ none :=
  public_ip_never_null.2.2 envStart "i-0123" (some "203.0.113.5") (by decide)
